import Mathlib

/-!
Verification development for `auto_rig_glb.py`.

The script analyzes an imported mesh and produces a rig.  We embed the
computational core shallowly:

* vertices are points with rational coordinates (`Vec3`); the Python
  floats are modelled exactly by rationals, since every constant in the
  source (`0.05`, `0.3`, `0.7`, ...) is a short decimal;
* the classification section (source lines 50-82) becomes pure functions
  over a vertex list and the bounding height;
* the bone-building section (source lines 107-204) becomes a pure
  function from the body-type flag, the bounding dimensions, the ground
  level and the object translation to a list of named bones.  After
  `transform_apply(rotation=True, scale=True)` the object's world matrix
  is a pure translation, which we carry as a `Vec3` parameter `t`;
* the `__main__` guard (source lines 227-231) becomes a function on the
  argument vector that records whether the script raises `IndexError`,
  prints the usage message, or proceeds.
-/

/-- A world-space point; coordinates are exact rationals. -/
structure Vec3 where
  x : ℚ
  y : ℚ
  z : ℚ
deriving DecidableEq

instance : Add Vec3 :=
  ⟨fun a b => ⟨a.x + b.x, a.y + b.y, a.z + b.z⟩⟩

/-- The two-way classification result (`char_type` in the source). -/
inductive BodyType where
  | Humanoid
  | Quadruped
deriving DecidableEq

/-- Python's `min` over a list (0 on the empty list, which the source
never reaches: every `min` call is guarded by a non-emptiness test). -/
def minQ : List ℚ → ℚ
  | [] => 0
  | [a] => a
  | a :: b :: rest => min a (minQ (b :: rest))

/-- Python's `max` over a list (0 on the empty list, same guard). -/
def maxQ : List ℚ → ℚ
  | [] => 0
  | [a] => a
  | a :: b :: rest => max a (maxQ (b :: rest))

/-- Source lines 51-54: `min_z = min(v.z for v in verts) if verts else 0.0`. -/
def min_z_of (verts : List Vec3) : ℚ :=
  if verts = [] then 0 else minQ (verts.map Vec3.z)

/-- Source lines 56-57: vertices within `eps = 5 / 100 * height` of the ground. -/
def foot_verts (verts : List Vec3) (height : ℚ) : List Vec3 :=
  verts.filter fun v => decide (v.z ≤ min_z_of verts + 5 / 100 * height)

/-- Source line 59: foot vertices with `x < 0`. -/
def left_foot_verts (verts : List Vec3) (height : ℚ) : List Vec3 :=
  (foot_verts verts height).filter fun v => decide (v.x < 0)

/-- Source line 60: foot vertices with `x > 0`. -/
def right_foot_verts (verts : List Vec3) (height : ℚ) : List Vec3 :=
  (foot_verts verts height).filter fun v => decide (0 < v.x)

/-- Source lines 62-66: the "foot group" counter. -/
def num_feet (verts : List Vec3) (height : ℚ) : Nat :=
  if left_foot_verts verts height ≠ [] then
    (if right_foot_verts verts height ≠ [] then 2 else 1)
  else if right_foot_verts verts height ≠ [] then 1 else 0

/-- Source lines 71-74: `max(v.y ...) - min(v.y ...) if l else 0`.
Applied to a side's foot cluster and (line 74) to the whole vertex list. -/
def y_range (l : List Vec3) : ℚ :=
  if l ≠ [] then maxQ (l.map Vec3.y) - minQ (l.map Vec3.y) else 0

/-- Source lines 68-79: the quadruped decision. -/
def is_quadruped (verts : List Vec3) (height : ℚ) : Bool :=
  if left_foot_verts verts height ≠ [] ∧ right_foot_verts verts height ≠ [] then
    decide (y_range (left_foot_verts verts height) > 3 / 10 * y_range verts ∧
      y_range (right_foot_verts verts height) > 3 / 10 * y_range verts)
  else if num_feet verts height ≥ 3 then true else false

/-- Source line 82: `char_type = "Quadruped" if is_quadruped else "Humanoid"`. -/
def char_type (verts : List Vec3) (height : ℚ) : BodyType :=
  if is_quadruped verts height then BodyType.Quadruped else BodyType.Humanoid

/-- A bone as the builder creates it: name, head, tail, optional parent.
Parents are recorded by name (names are unique in both topologies). -/
structure Bone where
  name : String
  head : Vec3
  tail : Vec3
  parent : Option String
deriving DecidableEq

/-- Source lines 96-105: `create_bone` sets name, head, tail and the
parent link; no geometric adjustment (`use_connect = False`). -/
def create_bone (name : String) (head tail : Vec3) (parent : Option String) : Bone :=
  ⟨name, head, tail, parent⟩

/-- Source line 111: `min_bb = (-width/2, -length/2, min_z)`. -/
def min_bb (w l g : ℚ) : Vec3 :=
  ⟨-(w / 2), -(l / 2), g⟩

/-- Source line 112: `max_bb = (width/2, length/2, height + min_z)`. -/
def max_bb (w l h g : ℚ) : Vec3 :=
  ⟨w / 2, l / 2, h + g⟩

/-- The world matrix after `transform_apply(rotation=True, scale=True)`
is a pure translation by the object location `t`; `world_mat @ v = t + v`. -/
def applyWorld (t v : Vec3) : Vec3 :=
  t + v

/-- Source line 114. -/
def min_bb_world (w l g : ℚ) (t : Vec3) : Vec3 :=
  applyWorld t (min_bb w l g)

/-- Source line 115. -/
def max_bb_world (w l h g : ℚ) (t : Vec3) : Vec3 :=
  applyWorld t (max_bb w l h g)

/-- Source line 117. -/
def pelvis_x (w l h g : ℚ) (t : Vec3) : ℚ :=
  ((min_bb_world w l g t).x + (max_bb_world w l h g t).x) / 2

/-- Source line 118. -/
def pelvis_y (w l h g : ℚ) (t : Vec3) : ℚ :=
  ((min_bb_world w l g t).y + (max_bb_world w l h g t).y) / 2

/-- Source lines 119-120: pelvis at `min_z + 7 / 10 * height`, centered in x/y. -/
def pelvis_pos (w l h g : ℚ) (t : Vec3) : Vec3 :=
  ⟨pelvis_x w l h g t, pelvis_y w l h g t, g + 7 / 10 * h⟩

/-- Source line 122: head position directly above the pelvis at max height. -/
def head_pos (w l h g : ℚ) (t : Vec3) : Vec3 :=
  ⟨pelvis_x w l h g t, pelvis_y w l h g t, (max_bb_world w l h g t).z⟩

/-- Source lines 124-204: the bone lists of the two topology branches, in
creation order.  `is_quad` is the classifier's verdict. -/
def buildBones (is_quad : Bool) (w l h g : ℚ) (t : Vec3) : List Bone :=
  let px := pelvis_x w l h g t
  let pelvis := pelvis_pos w l h g t
  let hp := head_pos w l h g t
  if !is_quad then
    let spine_base := create_bone "Spine" pelvis (pelvis + ⟨0, 0, 3 / 10 * h⟩) none
    let spine_top := create_bone "Spine.001" spine_base.tail
      (spine_base.tail + ⟨0, 0, 3 / 10 * h⟩) (some "Spine")
    let neck := create_bone "Spine.002" spine_top.tail
      (spine_top.tail + ⟨0, 0, 2 / 10 * h⟩) (some "Spine.001")
    let head_bone := create_bone "Head" neck.tail hp (some "Spine.002")
    let shoulder_z := neck.tail.z
    let shoulder_y := neck.tail.y
    let shoulder_offset := w * (5 / 10)
    let left_shoulder := (⟨px + shoulder_offset, shoulder_y, shoulder_z⟩ : Vec3)
    let right_shoulder := (⟨px - shoulder_offset, shoulder_y, shoulder_z⟩ : Vec3)
    let left_arm := create_bone "upper_arm.L" left_shoulder
      (left_shoulder + ⟨0, 0, -(25 / 100 * h)⟩) (some "Spine.001")
    let left_forearm := create_bone "lower_arm.L" left_arm.tail
      (left_arm.tail + ⟨0, 0, -(25 / 100 * h)⟩) (some "upper_arm.L")
    let right_arm := create_bone "upper_arm.R" right_shoulder
      (right_shoulder + ⟨0, 0, -(25 / 100 * h)⟩) (some "Spine.001")
    let right_forearm := create_bone "lower_arm.R" right_arm.tail
      (right_arm.tail + ⟨0, 0, -(25 / 100 * h)⟩) (some "upper_arm.R")
    let left_hand := create_bone "hand.L" left_forearm.tail
      (left_forearm.tail + ⟨0, 0, -(1 / 10 * h)⟩) (some "lower_arm.L")
    let right_hand := create_bone "hand.R" right_forearm.tail
      (right_forearm.tail + ⟨0, 0, -(1 / 10 * h)⟩) (some "lower_arm.R")
    let hip_offset := w * (2 / 10)
    let hip_z := pelvis.z
    let hip_y := pelvis.y
    let left_hip := (⟨px + hip_offset, hip_y, hip_z⟩ : Vec3)
    let right_hip := (⟨px - hip_offset, hip_y, hip_z⟩ : Vec3)
    let left_thigh := create_bone "thigh.L" left_hip
      (left_hip + ⟨0, 0, -(45 / 100 * h)⟩) (some "Spine")
    let right_thigh := create_bone "thigh.R" right_hip
      (right_hip + ⟨0, 0, -(45 / 100 * h)⟩) (some "Spine")
    let left_shin := create_bone "shin.L" left_thigh.tail
      ⟨left_thigh.tail.x, left_thigh.tail.y, g + 5 / 100 * h⟩ (some "thigh.L")
    let right_shin := create_bone "shin.R" right_thigh.tail
      ⟨right_thigh.tail.x, right_thigh.tail.y, g + 5 / 100 * h⟩ (some "thigh.R")
    let left_foot := create_bone "foot.L" left_shin.tail
      ⟨left_shin.tail.x, left_shin.tail.y + 5 / 100 * l, g⟩ (some "shin.L")
    let right_foot := create_bone "foot.R" right_shin.tail
      ⟨right_shin.tail.x, right_shin.tail.y + 5 / 100 * l, g⟩ (some "shin.R")
    [spine_base, spine_top, neck, head_bone, left_arm, left_forearm,
      right_arm, right_forearm, left_hand, right_hand, left_thigh,
      right_thigh, left_shin, right_shin, left_foot, right_foot]
  else
    let hip_center := (⟨px, pelvis.y - 25 / 100 * l, pelvis.z⟩ : Vec3)
    let shoulder_center := (⟨px, pelvis.y + 25 / 100 * l, pelvis.z⟩ : Vec3)
    let spine := create_bone "Spine" hip_center shoulder_center none
    let neck_base := shoulder_center + ⟨0, 0, 1 / 10 * h⟩
    let neck_top := (⟨px, pelvis.y + 25 / 100 * l, hp.z * (8 / 10)⟩ : Vec3)
    let neck_bone := create_bone "Neck" neck_base neck_top (some "Spine")
    let hp2 := (⟨px, pelvis.y + 1 / 2, (max_bb_world w l h g t).z⟩ : Vec3)
    let head_bone := create_bone "Head" neck_top hp2 (some "Neck")
    let shoulder_offset := w * (3 / 10)
    let hip_offset := w * (3 / 10)
    let front_shoulder_L := shoulder_center + ⟨shoulder_offset, 0, 0⟩
    let front_shoulder_R := shoulder_center + ⟨-shoulder_offset, 0, 0⟩
    let upper_front_L := create_bone "upper_arm.L" front_shoulder_L
      (front_shoulder_L + ⟨0, 0, -(5 / 10 * h)⟩) (some "Spine")
    let upper_front_R := create_bone "upper_arm.R" front_shoulder_R
      (front_shoulder_R + ⟨0, 0, -(5 / 10 * h)⟩) (some "Spine")
    let lower_front_L := create_bone "lower_arm.L" upper_front_L.tail
      ⟨upper_front_L.tail.x, upper_front_L.tail.y, g + 5 / 100 * h⟩ (some "upper_arm.L")
    let lower_front_R := create_bone "lower_arm.R" upper_front_R.tail
      ⟨upper_front_R.tail.x, upper_front_R.tail.y, g + 5 / 100 * h⟩ (some "upper_arm.R")
    let front_foot_L := create_bone "front_foot.L" lower_front_L.tail
      ⟨lower_front_L.tail.x, lower_front_L.tail.y, g⟩ (some "lower_arm.L")
    let front_foot_R := create_bone "front_foot.R" lower_front_R.tail
      ⟨lower_front_R.tail.x, lower_front_R.tail.y, g⟩ (some "lower_arm.R")
    let back_hip_L := hip_center + ⟨hip_offset, 0, 0⟩
    let back_hip_R := hip_center + ⟨-hip_offset, 0, 0⟩
    let upper_hind_L := create_bone "thigh.L" back_hip_L
      (back_hip_L + ⟨0, 0, -(5 / 10 * h)⟩) (some "Spine")
    let upper_hind_R := create_bone "thigh.R" back_hip_R
      (back_hip_R + ⟨0, 0, -(5 / 10 * h)⟩) (some "Spine")
    let lower_hind_L := create_bone "shin.L" upper_hind_L.tail
      ⟨upper_hind_L.tail.x, upper_hind_L.tail.y, g + 5 / 100 * h⟩ (some "thigh.L")
    let lower_hind_R := create_bone "shin.R" upper_hind_R.tail
      ⟨upper_hind_R.tail.x, upper_hind_R.tail.y, g + 5 / 100 * h⟩ (some "thigh.R")
    let hind_foot_L := create_bone "hind_foot.L" lower_hind_L.tail
      ⟨lower_hind_L.tail.x, lower_hind_L.tail.y, g⟩ (some "shin.L")
    let hind_foot_R := create_bone "hind_foot.R" lower_hind_R.tail
      ⟨lower_hind_R.tail.x, lower_hind_R.tail.y, g⟩ (some "shin.R")
    [spine, neck_bone, head_bone, upper_front_L, upper_front_R,
      lower_front_L, lower_front_R, front_foot_L, front_foot_R,
      upper_hind_L, upper_hind_R, lower_hind_L, lower_hind_R,
      hind_foot_L, hind_foot_R]

/-- Look a bone up by name. -/
def findBone (bs : List Bone) (n : String) : Option Bone :=
  bs.find? fun b => b.name == n

/-- `parentFirstAux seen bs = true` iff every bone in `bs` whose parent is
set names a bone seen strictly earlier. -/
def parentFirstAux (seen : List String) : List Bone → Bool
  | [] => true
  | b :: rest =>
    (match b.parent with
      | none => true
      | some p => seen.contains p) && parentFirstAux (seen ++ [b.name]) rest

/-- Names of the parentless bones, in creation order. -/
def rootNames (bs : List Bone) : List String :=
  (bs.filter fun b => b.parent.isNone).map Bone.name

/-- Failures named by the specification. -/
inductive RigError where
  | duplicateNameError
  | emptyMeshError
deriving DecidableEq

/-- Modelled from the spec: the bone registry that backs `create_bone` is
Blender's `edit_bones` collection, which is external to this repository.
Per the spec it registers the bone under `name` and fails with
`DuplicateNameError` when `name` is already present in the skeleton. -/
def createBone (skel : List Bone) (name : String) (head tail : Vec3)
    (parent : Option String) : Except RigError (List Bone × Bone) :=
  if skel.any fun b => b.name == name then
    Except.error RigError.duplicateNameError
  else
    Except.ok (skel ++ [create_bone name head tail parent],
      create_bone name head tail parent)

/-- Outcome of the `__main__` guard, source lines 227-231. -/
inductive MainOutcome where
  | indexError
  | usageError
  | invoked (filepath : String)
deriving DecidableEq

/-- Source lines 228-231: `sys.argv[1]` raises `IndexError` when absent;
otherwise `not sys.argv[1]` is true exactly for the empty string, which
prints the usage message; otherwise `auto_rig_glb` runs. -/
def main_guard (argv : List String) : MainOutcome :=
  match argv.get? 1 with
  | none => MainOutcome.indexError
  | some a => if a = "" then MainOutcome.usageError else MainOutcome.invoked a

example : char_type [⟨-1, 0, 0⟩, ⟨-1, 1, 0⟩, ⟨1, 0, 0⟩, ⟨1, 1, 0⟩] 1 =
    BodyType.Quadruped := by
  have h : is_quadruped [⟨-1, 0, 0⟩, ⟨-1, 1, 0⟩, ⟨1, 0, 0⟩, ⟨1, 1, 0⟩] 1 = true := by
    norm_num [is_quadruped, y_range, left_foot_verts, right_foot_verts,
      foot_verts, min_z_of, minQ, maxQ, List.filter]
    simp only [List.cons_ne_nil, ne_eq, not_false_eq_true, and_self, if_true,
      reduceCtorEq, if_false]
    norm_num
  simp [char_type, h]

example : char_type [⟨-1, 0, 0⟩, ⟨1, 0, 0⟩] 1 = BodyType.Humanoid := by
  have h : is_quadruped [⟨-1, 0, 0⟩, ⟨1, 0, 0⟩] 1 = false := by
    norm_num [is_quadruped, y_range, left_foot_verts, right_foot_verts,
      foot_verts, min_z_of, minQ, maxQ, List.filter, num_feet]
  simp [char_type, h]

example : (buildBones false 1 2 2 0 ⟨0, 0, 0⟩).length = 16 := rfl

example : (buildBones true 1 2 2 0 ⟨0, 0, 0⟩).length = 15 := rfl

/-- Unfolding lemma for vector addition. -/
theorem Vec3.add_def (a b : Vec3) : a + b = ⟨a.x + b.x, a.y + b.y, a.z + b.z⟩ := rfl

/-- Fixed bone names of the humanoid branch, in creation order. -/
def humanoidBoneNames : List String :=
  ["Spine", "Spine.001", "Spine.002", "Head", "upper_arm.L", "lower_arm.L",
    "upper_arm.R", "lower_arm.R", "hand.L", "hand.R", "thigh.L", "thigh.R",
    "shin.L", "shin.R", "foot.L", "foot.R"]

/-- Fixed bone names of the quadruped branch, in creation order. -/
def quadrupedBoneNames : List String :=
  ["Spine", "Neck", "Head", "upper_arm.L", "upper_arm.R", "lower_arm.L",
    "lower_arm.R", "front_foot.L", "front_foot.R", "thigh.L", "thigh.R",
    "shin.L", "shin.R", "hind_foot.L", "hind_foot.R"]

theorem minQ_le_of_mem : ∀ (l : List ℚ) (a : ℚ), a ∈ l → minQ l ≤ a
  | [], a, h => absurd h (List.not_mem_nil a)
  | [x], a, h => by
    rw [List.mem_singleton] at h
    simp [minQ, h]
  | x :: y :: r, a, h => by
    rcases List.mem_cons.mp h with h1 | h2
    · subst h1
      exact min_le_left _ _
    · calc minQ (x :: y :: r) = min x (minQ (y :: r)) := rfl
        _ ≤ minQ (y :: r) := min_le_right _ _
        _ ≤ a := minQ_le_of_mem (y :: r) a h2

theorem minQ_mem : ∀ (l : List ℚ), l ≠ [] → minQ l ∈ l
  | [], hne => absurd rfl hne
  | [x], _ => by simp [minQ]
  | x :: y :: r, _ => by
    have ih := minQ_mem (y :: r) (by simp)
    rcases le_total x (minQ (y :: r)) with hle | hle
    · simp [minQ, min_eq_left hle]
    · rw [show minQ (x :: y :: r) = min x (minQ (y :: r)) from rfl, min_eq_right hle]
      exact List.mem_cons_of_mem _ ih

theorem le_maxQ_of_mem : ∀ (l : List ℚ) (a : ℚ), a ∈ l → a ≤ maxQ l
  | [], a, h => absurd h (List.not_mem_nil a)
  | [x], a, h => by
    rw [List.mem_singleton] at h
    simp [maxQ, h]
  | x :: y :: r, a, h => by
    rcases List.mem_cons.mp h with h1 | h2
    · subst h1
      exact le_max_left _ _
    · calc a ≤ maxQ (y :: r) := le_maxQ_of_mem (y :: r) a h2
        _ ≤ max x (maxQ (y :: r)) := le_max_right _ _
        _ = maxQ (x :: y :: r) := rfl

theorem maxQ_mem : ∀ (l : List ℚ), l ≠ [] → maxQ l ∈ l
  | [], hne => absurd rfl hne
  | [x], _ => by simp [maxQ]
  | x :: y :: r, _ => by
    have ih := maxQ_mem (y :: r) (by simp)
    rcases le_total (maxQ (y :: r)) x with hle | hle
    · simp [maxQ, max_eq_left hle]
    · rw [show maxQ (x :: y :: r) = max x (maxQ (y :: r)) from rfl, max_eq_right hle]
      exact List.mem_cons_of_mem _ ih

/-- A permutation does not change the minimum. -/
theorem minQ_perm {l1 l2 : List ℚ} (h : l1.Perm l2) : minQ l1 = minQ l2 := by
  rcases eq_or_ne l1 [] with h1 | h1
  · subst h1
    have : l2 = [] := List.eq_nil_of_length_eq_zero (by simpa using h.length_eq.symm)
    rw [this]
  · have h2 : l2 ≠ [] := by
      intro e
      subst e
      exact h1 (List.eq_nil_of_length_eq_zero (by simpa using h.length_eq))
    exact le_antisymm
      (minQ_le_of_mem l1 _ (h.mem_iff.mpr (minQ_mem l2 h2)))
      (minQ_le_of_mem l2 _ (h.mem_iff.mp (minQ_mem l1 h1)))

/-- A permutation does not change the maximum. -/
theorem maxQ_perm {l1 l2 : List ℚ} (h : l1.Perm l2) : maxQ l1 = maxQ l2 := by
  rcases eq_or_ne l1 [] with h1 | h1
  · subst h1
    have : l2 = [] := List.eq_nil_of_length_eq_zero (by simpa using h.length_eq.symm)
    rw [this]
  · have h2 : l2 ≠ [] := by
      intro e
      subst e
      exact h1 (List.eq_nil_of_length_eq_zero (by simpa using h.length_eq))
    exact le_antisymm
      (le_maxQ_of_mem l2 _ (h.mem_iff.mp (maxQ_mem l1 h1)))
      (le_maxQ_of_mem l1 _ (h.mem_iff.mpr (maxQ_mem l2 h2)))

/-- C1 counterexample: at width 1, length 2, height 2, ground 0 and the
object at the origin the humanoid branch creates 16 bones and the
quadruped branch 15 (not 15 and 14 as claimed). -/
theorem bone_counts_differ_from_claim :
    ¬((buildBones false 1 2 2 0 ⟨0, 0, 0⟩).length = 15 ∧
      (buildBones true 1 2 2 0 ⟨0, 0, 0⟩).length = 14) := by
  decide

/-- C1 (amended): for every input the humanoid branch yields exactly the
16 fixed names of `humanoidBoneNames` and the quadruped branch (tail
disabled) exactly the 15 fixed names of `quadrupedBoneNames`, in creation
order; no other names appear. -/
theorem build_bone_names (w l h g : ℚ) (t : Vec3) :
    (buildBones false w l h g t).map Bone.name = humanoidBoneNames ∧
    (buildBones true w l h g t).map Bone.name = quadrupedBoneNames ∧
    humanoidBoneNames.length = 16 ∧ quadrupedBoneNames.length = 15 :=
  ⟨rfl, rfl, rfl, rfl⟩

/-- C3 counterexample: on the empty vertex list classification does not
fail; it produces ground level `0.0` and body type `Humanoid`. -/
theorem classify_empty_no_failure :
    min_z_of ([] : List Vec3) = 0 ∧ char_type [] 1 = BodyType.Humanoid :=
  ⟨rfl, rfl⟩

/-- C3 (amended): for every height, the empty vertex list is classified
without error, with ground level defaulting to `0.0` and body type
`Humanoid`. -/
theorem classify_empty_defaults (height : ℚ) :
    min_z_of ([] : List Vec3) = 0 ∧ char_type [] height = BodyType.Humanoid :=
  ⟨rfl, rfl⟩

/-- C6: with `width=1, length=2, height=2, groundLevel=0` and the object
at the origin, the pelvis lands at `(0, 0, 1.4)` and the humanoid root
bone `Spine` has its head there. -/
theorem humanoid_scenario_pelvis_spine :
    pelvis_pos 1 2 2 0 ⟨0, 0, 0⟩ = ⟨0, 0, 1.4⟩ ∧
    (findBone (buildBones false 1 2 2 0 ⟨0, 0, 0⟩) "Spine").map Bone.head =
      some ⟨0, 0, 1.4⟩ := by
  constructor
  · norm_num [pelvis_pos, pelvis_x, pelvis_y, min_bb_world, max_bb_world,
      applyWorld, min_bb, max_bb, Vec3.add_def, Vec3.mk.injEq]
  · norm_num [findBone, buildBones, create_bone, List.find?, pelvis_pos,
      pelvis_x, pelvis_y, min_bb_world, max_bb_world, applyWorld, min_bb,
      max_bb, Vec3.add_def, Vec3.mk.injEq, Option.map]

set_option maxHeartbeats 1600000 in
/-- C7: in both branches every bone with a parent names a bone created
strictly earlier, `Spine` is the unique parentless bone, and the names
are distinct. -/
theorem build_parent_first_unique_root (q : Bool) (w l h g : ℚ) (t : Vec3) :
    parentFirstAux [] (buildBones q w l h g t) = true ∧
    rootNames (buildBones q w l h g t) = ["Spine"] ∧
    ((buildBones q w l h g t).map Bone.name).Nodup := by
  cases q
  · refine ⟨rfl, rfl, ?_⟩
    have e : (buildBones false w l h g t).map Bone.name = humanoidBoneNames := rfl
    rw [e]
    decide
  · refine ⟨rfl, rfl, ?_⟩
    have e : (buildBones true w l h g t).map Bone.name = quadrupedBoneNames := rfl
    rw [e]
    decide

/-- C8: invoked without its positional argument the entry point evaluates
`sys.argv[1]` and dies with `IndexError` instead of reporting the usage
message; the usage message is only reached when an explicit empty-string
argument is passed. -/
theorem main_guard_missing_arg :
    main_guard ["auto_rig_glb.py"] = MainOutcome.indexError ∧
    main_guard ["auto_rig_glb.py", ""] = MainOutcome.usageError :=
  ⟨rfl, rfl⟩

/-- C9: the build is a pure function of the body type, the bounding
dimensions, the ground level and the object location: identical inputs
give identical bones (heads, tails and parent links). -/
theorem build_deterministic (q q' : Bool) (w w' l l' h h' g g' : ℚ) (t t' : Vec3)
    (hq : q = q') (hw : w = w') (hl : l = l') (hh : h = h') (hg : g = g')
    (ht : t = t') :
    buildBones q w l h g t = buildBones q' w' l' h' g' t' := by
  subst hq hw hl hh hg ht
  rfl

theorem build_deterministic_witness :
    buildBones true 1 2 2 0 ⟨0, 0, 0⟩ = buildBones true 1 2 2 0 ⟨0, 0, 0⟩ :=
  build_deterministic true true 1 1 2 2 2 2 0 0 ⟨0, 0, 0⟩ ⟨0, 0, 0⟩
    rfl rfl rfl rfl rfl rfl

/-- C4: the spec-modelled bone-creation primitive fails with
`DuplicateNameError` exactly when the name is already registered, and
otherwise registers and returns a bone with exactly that name. -/
theorem createBone_registers_or_fails (skel : List Bone) (n : String)
    (hd tl : Vec3) (p : Option String) :
    ((∃ b ∈ skel, b.name = n) →
      createBone skel n hd tl p = Except.error RigError.duplicateNameError) ∧
    ((∀ b ∈ skel, b.name ≠ n) →
      createBone skel n hd tl p =
        Except.ok (skel ++ [create_bone n hd tl p], create_bone n hd tl p)) := by
  constructor
  · rintro ⟨b, hb, he⟩
    have ha : (skel.any fun b => b.name == n) = true := by
      simp only [List.any_eq_true, beq_iff_eq]
      exact ⟨b, hb, he⟩
    simp [createBone, ha]
  · intro hall
    have ha : (skel.any fun b => b.name == n) = false := by
      simp only [List.any_eq_false, beq_iff_eq]
      exact hall
    simp [createBone, ha]

theorem createBone_registers_or_fails_witness :
    createBone [create_bone "Spine" ⟨0, 0, 0⟩ ⟨0, 0, 1⟩ none] "Spine"
        ⟨0, 0, 0⟩ ⟨0, 0, 1⟩ none = Except.error RigError.duplicateNameError ∧
    createBone [] "Spine" ⟨0, 0, 0⟩ ⟨0, 0, 1⟩ none =
      Except.ok ([create_bone "Spine" ⟨0, 0, 0⟩ ⟨0, 0, 1⟩ none],
        create_bone "Spine" ⟨0, 0, 0⟩ ⟨0, 0, 1⟩ none) :=
  ⟨(createBone_registers_or_fails _ "Spine" _ _ none).1
      ⟨create_bone "Spine" ⟨0, 0, 0⟩ ⟨0, 0, 1⟩ none, by simp, rfl⟩,
    (createBone_registers_or_fails _ "Spine" _ _ none).2 (by simp)⟩

/-- C5 counterexample: at `width=1, length=2, height=2, groundLevel=0`,
object at the origin, the quadruped `Head` bone's tail is
`(0, 1/2, 2)` — offset `+0.5` in y — not the mesh top-center `(0, 0, 2)`. -/
theorem quadruped_head_not_top_center :
    findBone (buildBones true 1 2 2 0 ⟨0, 0, 0⟩) "Head" =
      some (create_bone "Head" ⟨0, 1 / 2, 8 / 5⟩ ⟨0, 1 / 2, 2⟩ (some "Neck")) ∧
    ((⟨0, 1 / 2, 2⟩ : Vec3) = ⟨0, 0, 2⟩ → False) := by
  constructor
  · simp only [findBone, buildBones, create_bone, pelvis_pos, pelvis_x,
      pelvis_y, head_pos, min_bb_world, max_bb_world, applyWorld, min_bb,
      max_bb, Vec3.add_def]
    norm_num [Vec3.mk.injEq, Bone.mk.injEq]
    exact ⟨by decide, by decide⟩
  · intro he
    have : (1 / 2 : ℚ) = 0 := congrArg Vec3.y he
    norm_num at this

/-- C5 (amended): for every input, the quadruped `Neck` bone runs from
just above the shoulder anchor (`+0.1·height`) to a neck-top at 80% of
the head-top height, and the `Head` bone runs from that neck-top to a
point at mesh-center x, bounding-box-top z, but with y offset by a fixed
`+0.5` from the mesh-center y (not centered in y). -/
theorem quadruped_neck_head_bones (w l h g : ℚ) (t : Vec3) :
    findBone (buildBones true w l h g t) "Neck" =
      some (create_bone "Neck"
        ⟨t.x, t.y + 25 / 100 * l, g + 7 / 10 * h + 1 / 10 * h⟩
        ⟨t.x, t.y + 25 / 100 * l, (t.z + (h + g)) * (8 / 10)⟩ (some "Spine")) ∧
    findBone (buildBones true w l h g t) "Head" =
      some (create_bone "Head"
        ⟨t.x, t.y + 25 / 100 * l, (t.z + (h + g)) * (8 / 10)⟩
        ⟨t.x, t.y + 1 / 2, t.z + (h + g)⟩ (some "Neck")) := by
  constructor
  · simp only [findBone, buildBones, create_bone, List.find?_cons_of_neg,
      List.find?_cons_of_pos, pelvis_pos, pelvis_x, pelvis_y, head_pos,
      min_bb_world, max_bb_world, applyWorld, min_bb, max_bb, Vec3.add_def]
    norm_num [Vec3.mk.injEq, Bone.mk.injEq]
    ring_nf
    norm_num
    exact Or.inr (by decide)
  · simp only [findBone, buildBones, create_bone, List.find?_cons_of_neg,
      List.find?_cons_of_pos, pelvis_pos, pelvis_x, pelvis_y, head_pos,
      min_bb_world, max_bb_world, applyWorld, min_bb, max_bb, Vec3.add_def]
    norm_num [Vec3.mk.injEq, Bone.mk.injEq]
    ring_nf
    norm_num
    exact Or.inr ⟨by decide, Or.inr (by decide)⟩

theorem num_feet_le_two (verts : List Vec3) (height : ℚ) :
    num_feet verts height ≤ 2 := by
  unfold num_feet
  split_ifs <;> omega

/-- C2: classification returns `Quadruped` exactly when both foot
clusters are non-empty and each side's y-range strictly exceeds 0.3
times the total mesh y-range; in every other case it returns
`Humanoid` (the defensive `num_feet >= 3` branch is unreachable). -/
theorem classify_quadruped_iff (verts : List Vec3) (height : ℚ)
    (hne : verts ≠ []) :
    char_type verts height = BodyType.Quadruped ↔
      (left_foot_verts verts height ≠ [] ∧ right_foot_verts verts height ≠ [] ∧
        y_range (left_foot_verts verts height) > 3 / 10 * y_range verts ∧
        y_range (right_foot_verts verts height) > 3 / 10 * y_range verts) := by
  have hq : char_type verts height = BodyType.Quadruped ↔
      is_quadruped verts height = true := by
    unfold char_type
    rcases Bool.eq_false_or_eq_true (is_quadruped verts height) with hb | hb <;>
      simp [hb]
  rw [hq]
  unfold is_quadruped
  by_cases hl : left_foot_verts verts height = []
  · rw [if_neg (by simp [hl]),
      if_neg (by have := num_feet_le_two verts height; omega)]
    simp [hl]
  · by_cases hr : right_foot_verts verts height = []
    · rw [if_neg (by simp [hr]),
        if_neg (by have := num_feet_le_two verts height; omega)]
      simp [hr]
    · rw [if_pos ⟨hl, hr⟩]
      simp [hl, hr, decide_eq_true_iff]

/-- A concrete wide-stance vertex set: both sides populated at ground
level, each side spreading the full mesh length in y. -/
def wideStanceVerts : List Vec3 :=
  [⟨-1, 0, 0⟩, ⟨-1, 1, 0⟩, ⟨1, 0, 0⟩, ⟨1, 1, 0⟩]

theorem classify_quadruped_iff_witness :
    char_type wideStanceVerts 1 = BodyType.Quadruped ↔
      (left_foot_verts wideStanceVerts 1 ≠ [] ∧
        right_foot_verts wideStanceVerts 1 ≠ [] ∧
        y_range (left_foot_verts wideStanceVerts 1) >
          3 / 10 * y_range wideStanceVerts ∧
        y_range (right_foot_verts wideStanceVerts 1) >
          3 / 10 * y_range wideStanceVerts) :=
  classify_quadruped_iff wideStanceVerts 1 (by simp [wideStanceVerts])

theorem perm_eq_nil_iff {α : Type} {l1 l2 : List α} (h : l1.Perm l2) :
    l1 = [] ↔ l2 = [] := by
  constructor
  · intro e
    subst e
    exact List.eq_nil_of_length_eq_zero (by simpa using h.length_eq.symm)
  · intro e
    subst e
    exact List.eq_nil_of_length_eq_zero (by simpa using h.length_eq)

theorem y_range_perm {l1 l2 : List Vec3} (h : l1.Perm l2) :
    y_range l1 = y_range l2 := by
  unfold y_range
  rcases eq_or_ne l1 [] with h1 | h1
  · have h2 := (perm_eq_nil_iff h).mp h1
    simp [h1, h2]
  · have h2 : l2 ≠ [] := fun e => h1 ((perm_eq_nil_iff h).mpr e)
    rw [if_pos h1, if_pos h2, maxQ_perm (h.map Vec3.y), minQ_perm (h.map Vec3.y)]

theorem min_z_perm {l1 l2 : List Vec3} (hp : l1.Perm l2) :
    min_z_of l1 = min_z_of l2 := by
  unfold min_z_of
  rcases eq_or_ne l1 [] with h1 | h1
  · have h2 := (perm_eq_nil_iff hp).mp h1
    simp [h1, h2]
  · have h2 : l2 ≠ [] := fun e => h1 ((perm_eq_nil_iff hp).mpr e)
    rw [if_neg h1, if_neg h2]
    exact minQ_perm (hp.map Vec3.z)

theorem foot_verts_perm {l1 l2 : List Vec3} (height : ℚ) (hp : l1.Perm l2) :
    (foot_verts l1 height).Perm (foot_verts l2 height) := by
  unfold foot_verts
  have hmz := min_z_perm hp
  simp only [hmz]
  exact hp.filter _

theorem is_quadruped_perm {l1 l2 : List Vec3} (height : ℚ) (hp : l1.Perm l2) :
    is_quadruped l1 height = is_quadruped l2 height := by
  have hL : (left_foot_verts l1 height).Perm (left_foot_verts l2 height) := by
    unfold left_foot_verts
    exact (foot_verts_perm height hp).filter _
  have hR : (right_foot_verts l1 height).Perm (right_foot_verts l2 height) := by
    unfold right_foot_verts
    exact (foot_verts_perm height hp).filter _
  have hLn := perm_eq_nil_iff hL
  have hRn := perm_eq_nil_iff hR
  have hyL := y_range_perm hL
  have hyR := y_range_perm hR
  have hyT := y_range_perm hp
  have hnf : num_feet l1 height = num_feet l2 height := by
    unfold num_feet
    by_cases h1 : left_foot_verts l1 height = []
    · have h1' := hLn.mp h1
      by_cases h2 : right_foot_verts l1 height = []
      · have h2' := hRn.mp h2
        simp [h1, h2, h1', h2']
      · have h2' : right_foot_verts l2 height ≠ [] := fun e => h2 (hRn.mpr e)
        simp [h1, h2, h1', h2']
    · have h1' : left_foot_verts l2 height ≠ [] := fun e => h1 (hLn.mpr e)
      by_cases h2 : right_foot_verts l1 height = []
      · have h2' := hRn.mp h2
        simp [h1, h2, h1', h2']
      · have h2' : right_foot_verts l2 height ≠ [] := fun e => h2 (hRn.mpr e)
        simp [h1, h2, h1', h2']
  unfold is_quadruped
  rw [hyL, hyR, hyT, hnf]
  by_cases hb : left_foot_verts l1 height ≠ [] ∧ right_foot_verts l1 height ≠ []
  · have hb' : left_foot_verts l2 height ≠ [] ∧ right_foot_verts l2 height ≠ [] :=
      ⟨fun e => hb.1 (hLn.mpr e), fun e => hb.2 (hRn.mpr e)⟩
    rw [if_pos hb, if_pos hb']
  · have hb' : ¬(left_foot_verts l2 height ≠ [] ∧
        right_foot_verts l2 height ≠ []) := by
      intro hc
      exact hb ⟨fun e => hc.1 (hLn.mp e), fun e => hc.2 (hRn.mp e)⟩
    rw [if_neg hb, if_neg hb']

/-- C10: classification is invariant under permutation of the vertex
sequence: the body type and the ground level agree on any reordering. -/
theorem classify_perm_invariant (l1 l2 : List Vec3) (height : ℚ)
    (hp : l1.Perm l2) (hne : l1 ≠ []) :
    char_type l1 height = char_type l2 height ∧ min_z_of l1 = min_z_of l2 := by
  refine ⟨?_, min_z_perm hp⟩
  unfold char_type
  rw [is_quadruped_perm height hp]

theorem classify_perm_invariant_witness :
    char_type [⟨-1, 0, 0⟩, ⟨1, 2, 0⟩] 1 = char_type [⟨1, 2, 0⟩, ⟨-1, 0, 0⟩] 1 ∧
    min_z_of [⟨-1, 0, 0⟩, ⟨1, 2, 0⟩] = min_z_of [⟨1, 2, 0⟩, ⟨-1, 0, 0⟩] :=
  classify_perm_invariant _ _ 1 (List.Perm.swap _ _ _) (by simp)
